import Mathlib

/-!
Verification of `lib/cough-detection-models/convert_svm.py`.

The script loads a fitted scikit-learn SVC from `svm_param.joblib`,
builds a dictionary `model_data` of eight fields taken from the model's
fitted attributes, writes it with `json.dump` to `svm_model.json`
(opened in truncating write mode), and prints a fixed success message.

We embed the script shallowly: numpy arrays are shape-indexed functions
over `Rat` (floating-point values modelled as rationals), Python values
are an inductive `PyVal`, the filesystem is a map from paths to optional
contents, and the whole script is a pure function `runScript` over an
environment that records whether the load and the write succeed.
-/

/-- A 1-dimensional numpy array: a size together with its entries. -/
structure NDArray1 (α : Type) where
  size : Nat
  data : Fin size → α

/-- A 2-dimensional numpy array: row and column counts with its entries. -/
structure NDArray2 (α : Type) where
  rows : Nat
  cols : Nat
  data : Fin rows → Fin cols → α

/-- numpy's `ndarray.tolist` on a 1-D array: the entries in index order. -/
def NDArray1.tolist {α : Type} (a : NDArray1 α) : List α :=
  (List.finRange a.size).map a.data

/-- numpy's `ndarray.tolist` on a 2-D array: a nested list of the rows. -/
def NDArray2.tolist {α : Type} (a : NDArray2 α) : List (List α) :=
  (List.finRange a.rows).map fun i => (List.finRange a.cols).map fun j => a.data i j

/-- scikit-learn's fitted `gamma` attribute: a numeric kernel
coefficient, or the symbolic setting it was constructed with. -/
inductive GammaVal where
  | num (q : Rat)
  | sym (s : String)
deriving DecidableEq

/-- The attributes of a fitted scikit-learn SVC that the script reads
(`support_vectors_`, `dual_coef_`, `intercept_`, `gamma`, `C`, `kernel`,
`support_`, `n_support_`), plus the fitted feature count. -/
structure SVMModel where
  support_vectors_ : NDArray2 Rat
  dual_coef_ : NDArray2 Rat
  intercept_ : NDArray1 Rat
  gamma : GammaVal
  C : Rat
  kernel : String
  support_ : NDArray1 Int
  n_support_ : NDArray1 Nat
  n_features_in_ : Nat

/-- Python values as far as the script builds them: floats, ints,
strings, lists, and (insertion-ordered) dictionaries with string keys. -/
inductive PyVal where
  | float (q : Rat)
  | int (n : Int)
  | str (s : String)
  | list (xs : List PyVal)
  | dict (kvs : List (String × PyVal))

/-- Inject a list of floats into a Python list. -/
def pyFloats (xs : List Rat) : PyVal :=
  .list (xs.map .float)

/-- Inject a nested list of floats into nested Python lists. -/
def pyFloats2 (xss : List (List Rat)) : PyVal :=
  .list (xss.map pyFloats)

/-- Inject a list of ints into a Python list. -/
def pyInts (xs : List Int) : PyVal :=
  .list (xs.map .int)

/-- The Python value of the fitted `gamma` attribute. -/
def GammaVal.toPy : GammaVal → PyVal
  | .num q => .float q
  | .sym s => .str s

/-- The dictionary `model_data` built by the script, entry for entry and
in the source's insertion order; array attributes pass through `tolist`,
while `gamma`, `C` and `kernel` are stored as they are. -/
def model_data (m : SVMModel) : PyVal :=
  .dict [
    ("support_vectors", pyFloats2 m.support_vectors_.tolist),
    ("dual_coef", pyFloats2 m.dual_coef_.tolist),
    ("intercept", pyFloats m.intercept_.tolist),
    ("gamma", m.gamma.toPy),
    ("C", .float m.C),
    ("kernel", .str m.kernel),
    ("support", pyInts m.support_.tolist),
    ("n_support", pyInts (m.n_support_.tolist.map Int.ofNat))
  ]

/-- Deterministic decimal-style rendering of a numeric value, standing
in for Python's shortest round-tripping float `repr`. -/
def renderFloat (q : Rat) : String :=
  toString q.num ++ (if q.den = 1 then ".0" else "/" ++ toString q.den)

/-- JSON string escaping for one character (`json.dump` escapes the
backslash and the double quote). -/
def escapeChar (c : Char) : String :=
  if c = '\\' then "\\\\" else if c = '\"' then "\\\"" else String.singleton c

/-- JSON string escaping, character by character. -/
def escapeJsonStr (s : String) : String :=
  String.join (s.data.map escapeChar)

mutual

/-- Python's `json.dump` with its default separators `", "` and `": "`:
the serialized text of a Python value. -/
def dumpJson : PyVal → String
  | .float q => renderFloat q
  | .int n => toString n
  | .str s => "\"" ++ escapeJsonStr s ++ "\""
  | .list xs => "[" ++ dumpList xs ++ "]"
  | .dict kvs => "\x7b" ++ dumpDict kvs ++ "\x7d"

/-- The comma-separated serialization of the elements of a JSON array. -/
def dumpList : List PyVal → String
  | [] => ""
  | [x] => dumpJson x
  | x :: y :: xs => dumpJson x ++ ", " ++ dumpList (y :: xs)

/-- The comma-separated serialization of the entries of a JSON object. -/
def dumpDict : List (String × PyVal) → String
  | [] => ""
  | [(k, v)] => "\"" ++ escapeJsonStr k ++ "\": " ++ dumpJson v
  | (k, v) :: e :: kvs =>
      "\"" ++ escapeJsonStr k ++ "\": " ++ dumpJson v ++ ", " ++ dumpDict (e :: kvs)

end

/-- Lookup of a key in a Python dictionary's entry list. -/
def dictLookup (k : String) : List (String × PyVal) → Option PyVal
  | [] => none
  | (k2, v) :: kvs => if k = k2 then some v else dictLookup k kvs

/-- Lookup of a key in a Python value (dictionaries only). -/
def pyLookup (k : String) : PyVal → Option PyVal
  | .dict kvs => dictLookup k kvs
  | _ => none

/-- The key list of a Python value (empty unless it is a dictionary). -/
def pyKeys : PyVal → List String
  | .dict kvs => kvs.map Prod.fst
  | _ => []

/-- Whether a Python value is a dictionary, i.e. serializes to a
top-level JSON object. -/
def isDict : PyVal → Bool
  | .dict _ => true
  | _ => false

/-- An error raised by `joblib.load` (missing, corrupt or incompatible
artifact). -/
structure LoadErr where
  msg : String
deriving DecidableEq

/-- An error raised by `open`/`json.dump` on the output file. -/
structure WriteErr where
  msg : String
deriving DecidableEq

/-- An unhandled error terminating the script. -/
inductive ScriptErr where
  | load (e : LoadErr)
  | write (e : WriteErr)
deriving DecidableEq

/-- The externally determined circumstances of one run: what
`joblib.load('svm_param.joblib')` yields, whether writing the output
succeeds, which error a failed write raises, what a failed write may
leave at the output path, and the prior filesystem. -/
structure Env where
  loadResult : Except LoadErr SVMModel
  writeOk : Bool
  writeErr : WriteErr
  leftover : Option String
  fs : String → Option String

/-- The completed steps of a run, in order. -/
inductive Event where
  | load
  | extract
  | serialize
  | write
  | notify
deriving DecidableEq

/-- What a run leaves behind: its outcome, the final filesystem, the
lines printed to standard output, and the trace of completed steps. -/
structure RunResult where
  outcome : Except ScriptErr Unit
  fs : String → Option String
  stdout : List String
  events : List Event

/-- The hard-coded output path of the script. -/
def outputPath : String := "svm_model.json"

/-- The fixed message the script prints on success. -/
def successMessage : String := "SVM model converted to JSON format"

/-- Point update of a filesystem map. -/
def updateFS (fs : String → Option String) (p : String) (c : Option String) :
    String → Option String :=
  fun q => if q = p then c else fs q

/-- The whole script, top to bottom: load the model (propagating a load
error), build `model_data`, open `svm_model.json` for writing
(truncating) and `json.dump` into it (propagating a write error, which
may leave arbitrary partial content), then print the success message. -/
def runScript (env : Env) : RunResult :=
  match env.loadResult with
  | .error e => ⟨.error (.load e), env.fs, [], []⟩
  | .ok m =>
      if env.writeOk then
        ⟨.ok (), updateFS env.fs outputPath (some (dumpJson (model_data m))),
          [successMessage], [.load, .extract, .serialize, .write, .notify]⟩
      else
        ⟨.error (.write env.writeErr), updateFS env.fs outputPath env.leftover,
          [], [.load, .extract]⟩

/-- C1: every field of the exported record equals the corresponding
fitted attribute of the loaded model, with only the `tolist` format
conversion applied to the array attributes; `gamma`, `C` and `kernel`
are stored verbatim. -/
theorem record_fields_verbatim (m : SVMModel) :
    pyLookup "support_vectors" (model_data m) = some (pyFloats2 m.support_vectors_.tolist) ∧
    pyLookup "dual_coef" (model_data m) = some (pyFloats2 m.dual_coef_.tolist) ∧
    pyLookup "intercept" (model_data m) = some (pyFloats m.intercept_.tolist) ∧
    pyLookup "gamma" (model_data m) = some m.gamma.toPy ∧
    pyLookup "C" (model_data m) = some (.float m.C) ∧
    pyLookup "kernel" (model_data m) = some (.str m.kernel) ∧
    pyLookup "support" (model_data m) = some (pyInts m.support_.tolist) ∧
    pyLookup "n_support" (model_data m) =
      some (pyInts (m.n_support_.tolist.map Int.ofNat)) := by
  refine ⟨rfl, ?_, ?_, ?_, ?_, ?_, ?_, ?_⟩ <;>
    simp [model_data, pyLookup, dictLookup]

/-- Decode a Python value as a float. -/
def asFloat : PyVal → Option Rat
  | .float q => some q
  | _ => none

/-- Decode a Python value as an int. -/
def asInt : PyVal → Option Int
  | .int n => some n
  | _ => none

/-- Decode a Python value as a string. -/
def asStr : PyVal → Option String
  | .str s => some s
  | _ => none

/-- Decode a Python value as a list of floats. -/
def asFloatList : PyVal → Option (List Rat)
  | .list xs => xs.mapM asFloat
  | _ => none

/-- Decode a Python value as a nested list of floats. -/
def asFloat2 : PyVal → Option (List (List Rat))
  | .list xs => xs.mapM asFloatList
  | _ => none

/-- Decode a Python value as a list of ints. -/
def asIntList : PyVal → Option (List Int)
  | .list xs => xs.mapM asInt
  | _ => none

/-- Decode a Python value as a fitted `gamma` attribute: a JSON number
stands for the numeric setting, a JSON string for the symbolic one. -/
def asGamma : PyVal → Option GammaVal
  | .float q => some (.num q)
  | .str s => some (.sym s)
  | _ => none

/-- What a consumer reads back from the exported document. -/
structure DecodedRecord where
  support_vectors : List (List Rat)
  dual_coef : List (List Rat)
  intercept : List Rat
  gamma : GammaVal
  C : Rat
  kernel : String
  support : List Int
  n_support : List Int
deriving DecidableEq

/-- Deserialization of the exported document: look up each of the eight
fields and decode it at its expected type. -/
def decodeRecord (v : PyVal) : Option DecodedRecord := do
  let sv ← pyLookup "support_vectors" v >>= asFloat2
  let dc ← pyLookup "dual_coef" v >>= asFloat2
  let ic ← pyLookup "intercept" v >>= asFloatList
  let g ← pyLookup "gamma" v >>= asGamma
  let c ← pyLookup "C" v >>= asFloat
  let k ← pyLookup "kernel" v >>= asStr
  let sp ← pyLookup "support" v >>= asIntList
  let ns ← pyLookup "n_support" v >>= asIntList
  pure ⟨sv, dc, ic, g, c, k, sp, ns⟩

theorem mapM_asFloat_floats (xs : List Rat) :
    (xs.map PyVal.float).mapM asFloat = some xs := by
  induction xs with
  | nil => rfl
  | cons x xs ih =>
      simp only [List.map_cons, List.mapM_cons, asFloat, ih, Option.pure_def,
        Option.bind_eq_bind, Option.some_bind]

theorem asFloatList_pyFloats (xs : List Rat) : asFloatList (pyFloats xs) = some xs := by
  simp only [pyFloats, asFloatList, mapM_asFloat_floats]

theorem asFloat2_pyFloats2 (xss : List (List Rat)) :
    asFloat2 (pyFloats2 xss) = some xss := by
  simp only [pyFloats2, asFloat2]
  induction xss with
  | nil => rfl
  | cons xs xss ih =>
      simp only [List.map_cons, List.mapM_cons, asFloatList_pyFloats, ih,
        Option.pure_def, Option.bind_eq_bind, Option.some_bind]

theorem asIntList_pyInts (xs : List Int) : asIntList (pyInts xs) = some xs := by
  simp only [pyInts, asIntList]
  induction xs with
  | nil => rfl
  | cons x xs ih =>
      simp only [List.map_cons, List.mapM_cons, asInt, ih, Option.pure_def,
        Option.bind_eq_bind, Option.some_bind]

theorem asGamma_toPy (g : GammaVal) : asGamma g.toPy = some g := by
  cases g <;> rfl

/-- C3: deserializing the exported document recovers exactly the loaded
model's attributes: each decoded field equals the corresponding fitted
attribute (arrays through `tolist`); and on a successful run the output
file holds precisely the serialization of that document. -/
theorem decode_round_trip (env : Env) (m : SVMModel)
    (hload : env.loadResult = .ok m) (hwrite : env.writeOk = true) :
    (runScript env).fs outputPath = some (dumpJson (model_data m)) ∧
    decodeRecord (model_data m) =
      some ⟨m.support_vectors_.tolist, m.dual_coef_.tolist, m.intercept_.tolist,
            m.gamma, m.C, m.kernel, m.support_.tolist,
            m.n_support_.tolist.map Int.ofNat⟩ := by
  constructor
  · simp [runScript, hload, hwrite, updateFS]
  · simp [decodeRecord, model_data, pyLookup, dictLookup,
      asFloat2_pyFloats2, asFloatList_pyFloats, asIntList_pyInts,
      asGamma_toPy, asFloat, asStr]

/-- C2: on every successful run the output file holds the serialization
of a single top-level key-value object whose keys are exactly the eight
fields, in the source's order. -/
theorem output_single_object_eight_fields (env : Env) (m : SVMModel)
    (hload : env.loadResult = .ok m) (hwrite : env.writeOk = true) :
    (runScript env).fs outputPath = some (dumpJson (model_data m)) ∧
    isDict (model_data m) = true ∧
    pyKeys (model_data m) =
      ["support_vectors", "dual_coef", "intercept", "gamma", "C",
       "kernel", "support", "n_support"] := by
  refine ⟨?_, rfl, rfl⟩
  simp [runScript, hload, hwrite, updateFS]

theorem decodeRecord_model_data (m : SVMModel) :
    decodeRecord (model_data m) =
      some ⟨m.support_vectors_.tolist, m.dual_coef_.tolist, m.intercept_.tolist,
            m.gamma, m.C, m.kernel, m.support_.tolist,
            m.n_support_.tolist.map Int.ofNat⟩ := by
  simp [decodeRecord, model_data, pyLookup, dictLookup,
    asFloat2_pyFloats2, asFloatList_pyFloats, asIntList_pyInts,
    asGamma_toPy, asFloat, asStr]

theorem length_tolist1 {α : Type} (a : NDArray1 α) : a.tolist.length = a.size := by
  simp [NDArray1.tolist]

theorem length_tolist2 {α : Type} (a : NDArray2 α) : a.tolist.length = a.rows := by
  simp [NDArray2.tolist]

theorem sum_map_ofNat (l : List Nat) : (l.map Int.ofNat).sum = Int.ofNat l.sum := by
  induction l with
  | nil => rfl
  | cons x l ih => simp [ih, Int.ofNat_add]

/-- Modelled from the spec: what it means for the loaded artifact to be
a valid fitted classifier (scikit-learn's own fitted-attribute
invariants, which are assumed of the input, not established by this
repository): the per-class support-vector counts `n_support_` sum to
the number of support-vector indices in `support_`, which is the row
count of `support_vectors_`, whose column count is the fitted feature
count. -/
def ValidFitted (m : SVMModel) : Prop :=
  m.n_support_.tolist.sum = m.support_.size ∧
  m.support_.size = m.support_vectors_.rows ∧
  m.support_vectors_.cols = m.n_features_in_

instance (m : SVMModel) : Decidable (ValidFitted m) := by
  unfold ValidFitted; infer_instance

/-- C4: the export is deterministic in the loaded model: two runs that
load the same model and write successfully leave byte-identical output
files, namely the one serialization of `model_data` (key order and
number formatting included, both being fixed by `dumpJson`). -/
theorem export_deterministic (env1 env2 : Env) (m : SVMModel)
    (h1 : env1.loadResult = .ok m) (h2 : env2.loadResult = .ok m)
    (w1 : env1.writeOk = true) (w2 : env2.writeOk = true) :
    (runScript env1).fs outputPath = (runScript env2).fs outputPath ∧
    (runScript env1).fs outputPath = some (dumpJson (model_data m)) := by
  simp [runScript, h1, h2, w1, w2, updateFS]

/-- C5: no error is caught anywhere in the script: a failing run's
outcome is exactly the underlying load or write failure of its
environment, and the success message is never printed on such a run. -/
theorem errors_uncaught_propagate (env : Env) (e : ScriptErr)
    (h : (runScript env).outcome = .error e) :
    successMessage ∉ (runScript env).stdout ∧
    (runScript env).stdout = [] ∧
    (∀ le, e = .load le → env.loadResult = .error le) ∧
    (∀ we, e = .write we → env.writeOk = false ∧ we = env.writeErr) := by
  match henv : env.loadResult with
  | .error le =>
      simp [runScript, henv] at h ⊢
      subst h
      simp
  | .ok m =>
      by_cases hw : env.writeOk
      · simp [runScript, henv, hw] at h
      · simp [runScript, henv, hw] at h ⊢
        subst h
        simp [eq_comm]

/-- C6: when loading the artifact fails, the run fails with that load
error and the filesystem — in particular the output path — is left
untouched: no output file is created. -/
theorem load_error_output_unchanged (env : Env) (e : LoadErr)
    (h : env.loadResult = .error e) :
    (runScript env).outcome = .error (.load e) ∧
    (∀ p, (runScript env).fs p = env.fs p) ∧
    (runScript env).fs outputPath = env.fs outputPath := by
  simp [runScript, h]

/-- C7: the steps are strictly ordered load → extract → serialize →
write → notify: every successful run's trace is exactly that sequence
and prints exactly the fixed success message; and whenever the notify
step happens at all, the full trace shows it strictly after the write
step completed. -/
theorem steps_ordered_notify_last (env : Env) :
    ((runScript env).outcome = .ok () →
      (runScript env).events = [.load, .extract, .serialize, .write, .notify] ∧
      (runScript env).stdout = [successMessage]) ∧
    (Event.notify ∈ (runScript env).events →
      (runScript env).events = [.load, .extract, .serialize, .write, .notify] ∧
      (runScript env).events.indexOf Event.write < (runScript env).events.indexOf Event.notify) := by
  match henv : env.loadResult with
  | .error le => simp [runScript, henv]
  | .ok m =>
      by_cases hw : env.writeOk
      · simp [runScript, henv, hw]
      · simp [runScript, henv, hw]

/-- C8: for a valid fitted artifact, the exported record's `n_support`
entries sum to the length of its `support` array, which is also the
number of its `support_vectors` rows. -/
theorem n_support_sum_matches (m : SVMModel) (h : ValidFitted m)
    (r : DecodedRecord) (hr : decodeRecord (model_data m) = some r) :
    r.n_support.sum = Int.ofNat r.support.length ∧
    r.support.length = r.support_vectors.length := by
  have hd := decodeRecord_model_data m
  rw [hr] at hd
  injection hd with hd
  subst hd
  obtain ⟨h1, h2, h3⟩ := h
  refine ⟨?_, ?_⟩
  · simp [sum_map_ofNat, length_tolist1, h1]
  · simp [length_tolist1, length_tolist2, h2]

/-- C9: for a valid fitted artifact, the exported `support_vectors`
field is the 2-D array of the model's support vectors: it has one row
per support vector (the size of `support_`) and each row has one entry
per fitted feature. -/
theorem support_vectors_dims (m : SVMModel) (h : ValidFitted m) :
    pyLookup "support_vectors" (model_data m) = some (pyFloats2 m.support_vectors_.tolist) ∧
    m.support_vectors_.tolist.length = m.support_.size ∧
    ∀ row ∈ m.support_vectors_.tolist, row.length = m.n_features_in_ := by
  obtain ⟨h1, h2, h3⟩ := h
  refine ⟨rfl, ?_, ?_⟩
  · simp [length_tolist2, h2]
  · intro row hrow
    simp only [NDArray2.tolist, List.mem_map] at hrow
    obtain ⟨i, -, rfl⟩ := hrow
    simp [h3]

/-- C10: the output is written in truncating mode at the hard-coded
path `svm_model.json`: on a successful run, any pre-existing file at
that path is silently replaced by the fresh serialization (no existence
check influences the result), and no other path is touched. -/
theorem output_overwrites_existing (env : Env) (m : SVMModel) (old : String)
    (hload : env.loadResult = .ok m) (hwrite : env.writeOk = true)
    (_hold : env.fs outputPath = some old) :
    outputPath = "svm_model.json" ∧
    (runScript env).fs outputPath = some (dumpJson (model_data m)) ∧
    (∀ p, p ≠ outputPath → (runScript env).fs p = env.fs p) := by
  refine ⟨rfl, ?_, ?_⟩
  · simp [runScript, hload, hwrite, updateFS]
  · intro p hp
    simp [runScript, hload, hwrite, updateFS, hp]

/-- A small concrete fitted model for the witnesses: two support
vectors of two features each, two classes, an RBF kernel. -/
def demoModel : SVMModel where
  support_vectors_ :=
    ⟨2, 2, fun i j =>
      if i.val = 0 then (if j.val = 0 then 0 else 1)
      else (if j.val = 0 then 1 else 2)⟩
  dual_coef_ := ⟨1, 2, fun _ j => if j.val = 0 then 0 else 1⟩
  intercept_ := ⟨1, fun _ => 1⟩
  gamma := .num (1 / 10)
  C := 1
  kernel := "rbf"
  support_ := ⟨2, fun i => if i.val = 0 then 0 else 1⟩
  n_support_ := ⟨2, fun _ => 1⟩
  n_features_in_ := 2

/-- A prior filesystem that already has a file at the output path. -/
def demoFS : String → Option String :=
  fun p => if p = "svm_model.json" then some "stale" else none

/-- A run in which everything succeeds, over `demoFS`. -/
def envOk : Env := ⟨.ok demoModel, true, ⟨"disk full"⟩, none, demoFS⟩

/-- A second successful run, over an empty prior filesystem. -/
def envOkBlank : Env := ⟨.ok demoModel, true, ⟨"disk full"⟩, none, fun _ => none⟩

/-- A run in which the input artifact is missing. -/
def envMissing : Env := ⟨.error ⟨"no such file"⟩, true, ⟨"disk full"⟩, none, fun _ => none⟩

/-- The record the demo model's export decodes to. -/
def demoDecoded : DecodedRecord :=
  ⟨[[0, 1], [1, 2]], [[0, 1]], [1], .num (1 / 10), 1, "rbf", [0, 1], [1, 1]⟩

/-- Witness for C2 at a concrete successful run. -/
theorem output_single_object_eight_fields_witness :
    (runScript envOk).fs outputPath = some (dumpJson (model_data demoModel)) ∧
    isDict (model_data demoModel) = true ∧
    pyKeys (model_data demoModel) =
      ["support_vectors", "dual_coef", "intercept", "gamma", "C",
       "kernel", "support", "n_support"] :=
  output_single_object_eight_fields envOk demoModel rfl rfl

/-- Witness for C3 at a concrete successful run. -/
theorem decode_round_trip_witness :
    (runScript envOk).fs outputPath = some (dumpJson (model_data demoModel)) ∧
    decodeRecord (model_data demoModel) =
      some ⟨demoModel.support_vectors_.tolist, demoModel.dual_coef_.tolist,
            demoModel.intercept_.tolist, demoModel.gamma, demoModel.C,
            demoModel.kernel, demoModel.support_.tolist,
            demoModel.n_support_.tolist.map Int.ofNat⟩ :=
  decode_round_trip envOk demoModel rfl rfl

/-- Witness for C4 at two concrete runs over different prior filesystems. -/
theorem export_deterministic_witness :
    (runScript envOk).fs outputPath = (runScript envOkBlank).fs outputPath ∧
    (runScript envOk).fs outputPath = some (dumpJson (model_data demoModel)) :=
  export_deterministic envOk envOkBlank demoModel rfl rfl rfl rfl

/-- Witness for C5 at a concrete failing run. -/
theorem errors_uncaught_propagate_witness :
    successMessage ∉ (runScript envMissing).stdout ∧
    (runScript envMissing).stdout = [] ∧
    (∀ le, ScriptErr.load ⟨"no such file"⟩ = .load le →
      envMissing.loadResult = .error le) ∧
    (∀ we, ScriptErr.load ⟨"no such file"⟩ = .write we →
      envMissing.writeOk = false ∧ we = envMissing.writeErr) :=
  errors_uncaught_propagate envMissing (.load ⟨"no such file"⟩) rfl

/-- Witness for C6 at a concrete run with a missing input artifact. -/
theorem load_error_output_unchanged_witness :
    (runScript envMissing).outcome = .error (.load ⟨"no such file"⟩) ∧
    (∀ p, (runScript envMissing).fs p = envMissing.fs p) ∧
    (runScript envMissing).fs outputPath = envMissing.fs outputPath :=
  load_error_output_unchanged envMissing ⟨"no such file"⟩ rfl

/-- Witness for C7 at a concrete successful run. -/
theorem steps_ordered_notify_last_witness :
    ((runScript envOk).events = [.load, .extract, .serialize, .write, .notify] ∧
     (runScript envOk).stdout = [successMessage]) ∧
    ((runScript envOk).events = [.load, .extract, .serialize, .write, .notify] ∧
     (runScript envOk).events.indexOf Event.write <
       (runScript envOk).events.indexOf Event.notify) :=
  ⟨(steps_ordered_notify_last envOk).1 rfl,
   (steps_ordered_notify_last envOk).2 (by decide)⟩

/-- Witness for C8 at the concrete demo model. -/
theorem n_support_sum_matches_witness :
    demoDecoded.n_support.sum = Int.ofNat demoDecoded.support.length ∧
    demoDecoded.support.length = demoDecoded.support_vectors.length :=
  n_support_sum_matches demoModel (by decide) demoDecoded rfl

/-- Witness for C9 at the concrete demo model. -/
theorem support_vectors_dims_witness :
    pyLookup "support_vectors" (model_data demoModel) =
      some (pyFloats2 demoModel.support_vectors_.tolist) ∧
    demoModel.support_vectors_.tolist.length = demoModel.support_.size ∧
    ∀ row ∈ demoModel.support_vectors_.tolist,
      row.length = demoModel.n_features_in_ :=
  support_vectors_dims demoModel (by decide)

/-- Witness for C10 at a concrete run whose prior filesystem already
has a file at the output path. -/
theorem output_overwrites_existing_witness :
    outputPath = "svm_model.json" ∧
    (runScript envOk).fs outputPath = some (dumpJson (model_data demoModel)) ∧
    (∀ p, p ≠ outputPath → (runScript envOk).fs p = envOk.fs p) :=
  output_overwrites_existing envOk demoModel "stale" rfl rfl rfl
